import Mathlib

/-!
Shallow embedding of `src/rustlings/exercises/advanced_errors/advanced_errs2.rs`:
a `FromStr` parser for `Climate` records of the shape `"<city>,<year>,<temperature>"`
with the custom error enum `ParseClimateError`.

Strings are modelled as `List Char` (one entry per Unicode scalar value, exactly as
Rust's `str::chars`); the byte-level loops of the standard-library numeric parsers
treat every non-ASCII character as a non-digit, which the character-level model
reproduces. `f32` values are modelled exactly, as the signed decimal rational denoted
by the accepted literal (plus the special values `inf`, `-inf`, `nan`): rounding to
the nearest IEEE binary32 is not modelled, which is faithful for every claim below
since the claims only compare the parser's output value with the record field it is
stored into, never two distinct literals denoting the same binary32.
-/

deriving instance DecidableEq for Except

/-- The error kinds `u32::from_str` can produce (Rust `IntErrorKind`, restricted to
the kinds reachable when parsing an unsigned 32-bit integer in base 10). -/
inductive IntErrorKind where
  | empty
  | invalidDigit
  | posOverflow
deriving DecidableEq

/-- The error kinds `f32::from_str` can produce (Rust `FloatErrorKind`). -/
inductive FloatErrorKind where
  | empty
  | invalid
deriving DecidableEq

/-- `u32::MAX`. -/
def u32Max : Nat := 4294967295

/-- The digit-accumulation loop of Rust's `from_str_radix` for `u32`: each
character must be a decimal digit (else `InvalidDigit`), and the running value
must stay within `u32` (else `PosOverflow`). -/
def parseU32Digits (acc : Nat) : List Char → Except IntErrorKind Nat
  | [] => .ok acc
  | c :: rest =>
    if c.isDigit then
      let acc' := acc * 10 + (c.toNat - 48)
      if acc' ≤ u32Max then parseU32Digits acc' rest
      else .error .posOverflow
    else .error .invalidDigit

/-- Rust `u32::from_str` (`from_str_radix` at radix 10): empty input is `Empty`;
a leading `+` is stripped (but a bare sign is `InvalidDigit`); a leading `-` is
`InvalidDigit` for an unsigned target; then the digit loop runs. -/
def parseU32 (s : List Char) : Except IntErrorKind Nat :=
  match s with
  | [] => .error .empty
  | c :: rest =>
    if c = '+' then
      match rest with
      | [] => .error .invalidDigit
      | _ => parseU32Digits 0 rest
    else if c = '-' then .error .invalidDigit
    else parseU32Digits 0 s

/-- Value of a parsed `f32`, modelled exactly: a signed decimal rational for
finite literals, or one of the special values. A parsed `-nan` is `nan` (the
sign of a NaN is unobservable at the level of the claims). -/
inductive F32Val where
  | finite (q : ℚ)
  | inf
  | negInf
  | nan
deriving DecidableEq

/-- Strip one leading `+` or `-` sign, as Rust's numeric parsers do. -/
def stripSign : List Char → List Char
  | '+' :: r => r
  | '-' :: r => r
  | s => s

/-- Whether the string starts with a `-` sign. -/
def isNeg : List Char → Bool
  | '-' :: _ => true
  | _ => false

/-- ASCII-case-insensitive comparison against a lowercase pattern
(Rust `eq_ignore_ascii_case` with a lowercase literal on the right). -/
def caseEq (s t : List Char) : Bool :=
  s.map Char.toLower == t

/-- Decimal digit list to its numeric value. -/
def digitsToNat (ds : List Char) : Nat :=
  ds.foldl (fun a c => a * 10 + (c.toNat - 48)) 0

/-- The exponent suffix of a float literal, after the `e`/`E`: an optional sign
followed by at least one digit, consuming the whole remainder. -/
def parseExp (s : List Char) : Option Int :=
  let ds := stripSign s
  if !ds.isEmpty && ds.all Char.isDigit then
    some (if isNeg s then -(digitsToNat ds : Int) else (digitsToNat ds : Int))
  else none

/-- The number form of Rust's `f32` grammar, after the sign: digits, an optional
decimal point with further digits, at least one digit in total, and an optional
`e`/`E` exponent; the whole string must be consumed. Returns the exact rational
value `mantissa * 10 ^ exponent`. -/
def parseNumber (s : List Char) : Option ℚ :=
  let intDs := s.takeWhile Char.isDigit
  let r1 := s.dropWhile Char.isDigit
  let fracDs := match r1 with
    | '.' :: f => f.takeWhile Char.isDigit
    | _ => []
  let r2 := match r1 with
    | '.' :: f => f.dropWhile Char.isDigit
    | _ => r1
  if intDs.isEmpty && fracDs.isEmpty then none
  else
    let mant : ℚ := (digitsToNat intDs : ℚ) + (digitsToNat fracDs : ℚ) / 10 ^ fracDs.length
    match r2 with
    | [] => some mant
    | c :: r => if c = 'e' ∨ c = 'E' then (parseExp r).map (fun e => mant * (10 : ℚ) ^ e) else none

/-- Rust `f32::from_str` (`dec2flt`): empty input is `Empty`; one sign is
stripped (a bare sign is `Invalid`); a number literal is tried first, and on
failure the case-insensitive specials `inf` / `infinity` / `nan`; anything else
is `Invalid`. -/
def parseF32 (s : List Char) : Except FloatErrorKind F32Val :=
  if s.isEmpty then .error .empty
  else
    let neg := isNeg s
    let rest := stripSign s
    if rest.isEmpty then .error .invalid
    else
      match parseNumber rest with
      | some q => .ok (.finite (if neg then -q else q))
      | none =>
        if caseEq rest "inf".data || caseEq rest "infinity".data then
          .ok (if neg then .negInf else .inf)
        else if caseEq rest "nan".data then
          .ok .nan
        else .error .invalid

/-- The enum `ParseClimateError` of the source file; the numeric variants carry
the wrapped standard-library error, preserved verbatim. -/
inductive ParseClimateError where
  | Empty
  | BadLen
  | NoCity
  | ParseInt (e : IntErrorKind)
  | ParseFloat (e : FloatErrorKind)
deriving DecidableEq

/-- The struct `Climate` of the source file. -/
structure Climate where
  city : String
  year : Nat
  temp : F32Val
deriving DecidableEq

/-- Rust `str::split(',')` as used at line 75: the empty string yields one empty
field, and each comma opens a new field. -/
def splitComma : List Char → List (List Char)
  | [] => [[]]
  | c :: rest =>
    match splitComma rest with
    | [] => [[c]]
    | f :: fs => if c = ',' then [] :: f :: fs else (c :: f) :: fs

/-- Outcome of the `match &v[..]` at lines 80–84 of the source. -/
inductive FieldsMatch where
  | cityYearTemp (city year temp : List Char)
  | noCity
  | badLenFallback
deriving DecidableEq

/-- The `match &v[..]` at lines 80–84: a three-element slice with a non-empty
first field binds the fields; any other three-element slice is `NoCity`; the
fallback arm is `BadLen`. -/
def matchFields : List (List Char) → FieldsMatch
  | [city, year, temp] =>
    if !city.isEmpty then .cityYearTemp city year temp else .noCity
  | _ => .badLenFallback

/-- `Climate::from_str` (lines 70–90): empty check, split on commas, length
check, field match, then the `u32` and `f32` parses with `?`-style error
wrapping via the two `From` impls. -/
def fromStrList (s : List Char) : Except ParseClimateError Climate :=
  if s.isEmpty then .error .Empty
  else
    let v := splitComma s
    if v.length ≠ 3 then .error .BadLen
    else
      match matchFields v with
      | .cityYearTemp city year temp =>
        match parseU32 year with
        | .error e => .error (.ParseInt e)
        | .ok yr =>
          match parseF32 temp with
          | .error e => .error (.ParseFloat e)
          | .ok tp => .ok { city := ⟨city⟩, year := yr, temp := tp }
      | .noCity => .error .NoCity
      | .badLenFallback => .error .BadLen

/-- `Climate::from_str` on a Lean `String`. -/
def climateFromStr (s : String) : Except ParseClimateError Climate :=
  fromStrList s.data

/-- `Display` for Rust `ParseIntError` (the messages of the reachable kinds). -/
def displayIntError : IntErrorKind → String
  | .empty => "cannot parse integer from empty string"
  | .invalidDigit => "invalid digit found in string"
  | .posOverflow => "number too large to fit in target type"

/-- `Display` for Rust `ParseFloatError`. -/
def displayFloatError : FloatErrorKind → String
  | .empty => "cannot parse float from empty string"
  | .invalid => "invalid float literal"

/-- `Display for ParseClimateError` (lines 35–46 of the source). -/
def displayClimateError : ParseClimateError → String
  | .Empty => "empty input"
  | .BadLen => "incorrect number of fields"
  | .NoCity => "no city name"
  | .ParseInt e => "error parsing year: " ++ displayIntError e
  | .ParseFloat e => "error parsing temperature: " ++ displayFloatError e

/-- A value behind the `&dyn Error` returned by `source`: one of the two
wrapped standard-library errors, kept as the original object. -/
inductive DynError where
  | intErr (e : IntErrorKind)
  | floatErr (e : FloatErrorKind)
deriving DecidableEq

/-- `Error::source for ParseClimateError` (lines 49–57 of the source). -/
def errorSource : ParseClimateError → Option DynError
  | .ParseInt e => some (.intErr e)
  | .ParseFloat e => some (.floatErr e)
  | _ => none

/-- The claimed grammar of the temperature field, modelled from the SPEC's words
(not from the code), for comparison with `parseF32`: "standard decimal notation
(optional sign, digits, optional decimal point and fractional digits)". -/
def specDecimalGrammar (s : List Char) : Bool :=
  let rest := stripSign s
  let intDs := rest.takeWhile Char.isDigit
  let r1 := rest.dropWhile Char.isDigit
  !intDs.isEmpty &&
    (r1.isEmpty || (r1.head? == some '.' && !r1.tail.isEmpty && r1.tail.all Char.isDigit))

lemma isEmpty_false_of_ne {s : List Char} (h : s ≠ []) : s.isEmpty = false := by
  cases s with
  | nil => exact absurd rfl h
  | cons _ _ => rfl

lemma parseNumber_some_of_digits (r : List Char)
    (hInt : (r.takeWhile Char.isDigit).isEmpty = false)
    (hRest : r.dropWhile Char.isDigit = [] ∨
      ∃ f, r.dropWhile Char.isDigit = '.' :: f ∧ f.isEmpty = false ∧
        f.all Char.isDigit = true) :
    (parseNumber r).isSome = true := by
  rcases hRest with h | ⟨f, hf, hfe, hfa⟩
  · simp [parseNumber, h, hInt]
  · have hmem : ∀ x ∈ f, Char.isDigit x = true := by simpa using hfa
    have h1 : f.takeWhile Char.isDigit = f := List.takeWhile_eq_self_iff.mpr hmem
    have h2 : f.dropWhile Char.isDigit = [] := List.dropWhile_eq_nil_iff.mpr hmem
    simp [parseNumber, hf, hInt, h1, h2]

lemma parseF32_ok_of_specGrammar (t : List Char) (h : specDecimalGrammar t = true) :
    ∃ v, parseF32 t = .ok v := by
  unfold specDecimalGrammar at h
  simp only [Bool.and_eq_true, Bool.not_eq_true', Bool.or_eq_true, beq_iff_eq] at h
  obtain ⟨hInt, hRest⟩ := h
  have hrest_ne : stripSign t ≠ [] := by
    intro h0
    rw [h0] at hInt
    simp [List.takeWhile] at hInt
  have ht_ne : t ≠ [] := by
    intro h0
    rw [h0] at hrest_ne
    exact hrest_ne rfl
  have hRest' : (stripSign t).dropWhile Char.isDigit = [] ∨
      ∃ f, (stripSign t).dropWhile Char.isDigit = '.' :: f ∧ f.isEmpty = false ∧
        f.all Char.isDigit = true := by
    rcases hRest with h1 | h1
    · left
      rcases hd : (stripSign t).dropWhile Char.isDigit with _ | ⟨a, f⟩
      · rfl
      · rw [hd] at h1
        simp at h1
    · right
      rcases hd : (stripSign t).dropWhile Char.isDigit with _ | ⟨a, f⟩
      · rw [hd] at h1
        simp at h1
      · rw [hd] at h1
        obtain ⟨⟨ha, hfe⟩, hfa⟩ := h1
        simp at ha
        refine ⟨f, ?_, ?_, ?_⟩
        · rw [ha]
        · simpa using hfe
        · simpa using hfa
  obtain ⟨q, hq⟩ := Option.isSome_iff_exists.mp (parseNumber_some_of_digits _ hInt hRest')
  refine ⟨.finite (if isNeg t then -q else q), ?_⟩
  simp [parseF32, isEmpty_false_of_ne ht_ne, isEmpty_false_of_ne hrest_ne, hq]

lemma splitComma_ne_nil (s : List Char) : splitComma s ≠ [] := by
  cases s with
  | nil => simp [splitComma]
  | cons c rest =>
    simp only [splitComma]
    rcases splitComma rest with _ | ⟨f, fs⟩
    · simp
    · rcases eq_or_ne c ',' with hc | hc <;> simp [hc]

lemma splitComma_no_comma (a : List Char) (h : ',' ∉ a) : splitComma a = [a] := by
  induction a with
  | nil => rfl
  | cons c rest ih =>
    have hc : c ≠ ',' := fun hc => h (by simp [hc])
    have hr : ',' ∉ rest := fun hm => h (List.mem_cons_of_mem _ hm)
    simp [splitComma, ih hr, hc]

lemma splitComma_append (a r : List Char) (h : ',' ∉ a) :
    splitComma (a ++ ',' :: r) = a :: splitComma r := by
  induction a with
  | nil =>
    simp only [List.nil_append, splitComma]
    rcases hr : splitComma r with _ | ⟨f, fs⟩
    · exact absurd hr (splitComma_ne_nil r)
    · simp
  | cons c rest ih =>
    have hc : c ≠ ',' := fun hc => h (by simp [hc])
    have hr : ',' ∉ rest := fun hm => h (List.mem_cons_of_mem _ hm)
    simp only [List.cons_append, splitComma, List.append_eq]
    rw [ih hr]
    simp [hc]

lemma ne_nil_of_split3 {s c y t : List Char} (hs : splitComma s = [c, y, t]) :
    s ≠ [] := by
  intro h
  subst h
  simp [splitComma] at hs

lemma fromStr_badLen {s : List Char} (h0 : s ≠ [])
    (h3 : (splitComma s).length ≠ 3) : fromStrList s = .error .BadLen := by
  simp [fromStrList, isEmpty_false_of_ne h0, h3]

lemma fromStr_noCity {s y t : List Char} (hs : splitComma s = [[], y, t]) :
    fromStrList s = .error .NoCity := by
  simp [fromStrList, isEmpty_false_of_ne (ne_nil_of_split3 hs), hs, matchFields]

lemma fromStr_intErr {s c y t : List Char} {e : IntErrorKind}
    (hs : splitComma s = [c, y, t]) (hc : c ≠ [])
    (hy : parseU32 y = .error e) : fromStrList s = .error (.ParseInt e) := by
  simp [fromStrList, isEmpty_false_of_ne (ne_nil_of_split3 hs), hs, matchFields,
    isEmpty_false_of_ne hc, hy]

lemma fromStr_floatErr {s c y t : List Char} {n : Nat} {e : FloatErrorKind}
    (hs : splitComma s = [c, y, t]) (hc : c ≠ [])
    (hy : parseU32 y = .ok n) (ht : parseF32 t = .error e) :
    fromStrList s = .error (.ParseFloat e) := by
  simp [fromStrList, isEmpty_false_of_ne (ne_nil_of_split3 hs), hs, matchFields,
    isEmpty_false_of_ne hc, hy, ht]

lemma fromStr_ok {s c y t : List Char} {n : Nat} {v : F32Val}
    (hs : splitComma s = [c, y, t]) (hc : c ≠ [])
    (hy : parseU32 y = .ok n) (ht : parseF32 t = .ok v) :
    fromStrList s = .ok { city := ⟨c⟩, year := n, temp := v } := by
  simp [fromStrList, isEmpty_false_of_ne (ne_nil_of_split3 hs), hs, matchFields,
    isEmpty_false_of_ne hc, hy, ht]

/-- C1: for every input of the shape `"<city>,<year>,<temperature>"` — non-empty
comma-free city, second field parsed by the unsigned-integer parser, third field
parsed by the float parser — `from_str` succeeds with a `Climate` whose `city`
is the first field untrimmed, whose `year` is the parsed integer and whose
`temp` is the parsed float. -/
theorem c1_wellformed_parse (city year temp : List Char) (n : Nat) (v : F32Val)
    (hc : city ≠ []) (h1 : ',' ∉ city) (h2 : ',' ∉ year) (h3 : ',' ∉ temp)
    (hy : parseU32 year = .ok n) (ht : parseF32 temp = .ok v) :
    fromStrList (city ++ ',' :: (year ++ ',' :: temp)) =
      .ok { city := ⟨city⟩, year := n, temp := v } := by
  have hs : splitComma (city ++ ',' :: (year ++ ',' :: temp)) = [city, year, temp] := by
    rw [splitComma_append _ _ h1, splitComma_append _ _ h2, splitComma_no_comma _ h3]
  exact fromStr_ok hs hc hy ht

/-- C1 witness: `"Munich,2015,23.1"` parses to
`Climate { city := "Munich", year := 2015, temp := 23.1 }`. -/
theorem c1_witness :
    fromStrList ("Munich".data ++ ',' :: ("2015".data ++ ',' :: "23.1".data)) =
      .ok { city := "Munich", year := 2015, temp := .finite (231 / 10) } :=
  c1_wellformed_parse "Munich".data "2015".data "23.1".data 2015 (.finite (231 / 10))
    (by decide) (by decide) (by decide) (by decide) (by decide)
    (by with_unfolding_all rfl)

/-- C2 counterexample: the empty string splits on commas into 1 field (not 3),
yet `from_str` fails with `Empty`, not `WrongFieldCount`: the claim's universal
statement fails at the zero-length input. -/
theorem c2_counterexample :
    (splitComma "".data).length ≠ 3 ∧
      climateFromStr "" ≠ .error .BadLen ∧ climateFromStr "" = .error .Empty :=
  ⟨by decide, by decide, by decide⟩

/-- C2 (amended with non-emptiness, which the zero-length input forces): for
every NON-EMPTY input splitting into a number of comma-fields other than 3,
`from_str` fails with `WrongFieldCount` — even when the first field is empty —
and in particular never with `MissingCity`. -/
theorem c2_field_count_before_city (s : List Char) (h0 : s ≠ [])
    (h3 : (splitComma s).length ≠ 3) :
    fromStrList s = .error .BadLen ∧ fromStrList s ≠ .error .NoCity := by
  have h := fromStr_badLen h0 h3
  exact ⟨h, by simp [h]⟩

/-- C2 witness: `",1997"` (two fields, and the first is empty) fails with
`WrongFieldCount`, not `MissingCity`. -/
theorem c2_witness :
    fromStrList ",1997".data = .error .BadLen ∧
      fromStrList ",1997".data ≠ .error .NoCity :=
  c2_field_count_before_city ",1997".data (by decide) (by decide)

/-- C3: the zero-length input fails with `Empty` (the check runs before the
split, so no other variant is produced for it). -/
theorem c3_empty_input : climateFromStr "" = .error .Empty := by decide

/-- C4: every non-empty input splitting into fewer or more than 3 comma-fields
fails with `WrongFieldCount`. -/
theorem c4_wrong_field_count (s : List Char) (h0 : s ≠ [])
    (h3 : (splitComma s).length ≠ 3) : fromStrList s = .error .BadLen :=
  fromStr_badLen h0 h3

/-- C4 witness: `"Boston,1991"` (2 fields) and `"Paris,1920,17.2,extra"`
(4 fields) both fail with `WrongFieldCount`. -/
theorem c4_witness :
    fromStrList "Boston,1991".data = .error .BadLen ∧
      fromStrList "Paris,1920,17.2,extra".data = .error .BadLen :=
  ⟨c4_wrong_field_count "Boston,1991".data (by decide) (by decide),
   c4_wrong_field_count "Paris,1920,17.2,extra".data (by decide) (by decide)⟩

/-- C5: every input splitting into exactly 3 comma-fields whose first field is
empty fails with `MissingCity`. -/
theorem c5_missing_city (s y t : List Char) (hs : splitComma s = [[], y, t]) :
    fromStrList s = .error .NoCity :=
  fromStr_noCity hs

/-- C5 witness: `",1997,20.5"` fails with `MissingCity`. -/
theorem c5_witness : fromStrList ",1997,20.5".data = .error .NoCity :=
  c5_missing_city ",1997,20.5".data "1997".data "20.5".data (by decide)

/-- C6: every input with exactly 3 fields and a non-empty city whose second
field is rejected by the unsigned-integer parser fails with
`IntegerParseFailure` wrapping the parser's error unchanged; no hypothesis is
placed on the third field, so this holds even when it is also malformed. -/
theorem c6_int_parse_failure (s c y t : List Char) (e : IntErrorKind)
    (hs : splitComma s = [c, y, t]) (hc : c ≠ [])
    (hy : parseU32 y = .error e) :
    fromStrList s = .error (.ParseInt e) :=
  fromStr_intErr hs hc hy

/-- C6 witness: the leading-minus input `"Barcelona,-25,22.3"` and the
non-digit input `"Beijing,foo,15.0"` both fail with `IntegerParseFailure`
wrapping `InvalidDigit`. -/
theorem c6_witness :
    fromStrList "Barcelona,-25,22.3".data = .error (.ParseInt .invalidDigit) ∧
      fromStrList "Beijing,foo,15.0".data = .error (.ParseInt .invalidDigit) :=
  ⟨c6_int_parse_failure "Barcelona,-25,22.3".data "Barcelona".data "-25".data
      "22.3".data .invalidDigit (by decide) (by decide) (by decide),
   c6_int_parse_failure "Beijing,foo,15.0".data "Beijing".data "foo".data
      "15.0".data .invalidDigit (by decide) (by decide) (by decide)⟩

/-- C7 counterexample: `"inf"` is outside the spec's "standard decimal
notation" (optional sign, digits, optional decimal point and fractional
digits), yet the float parser accepts it, so `"Manila,2001,inf"` parses
successfully — the claimed "exactly when" fails in the only-if direction. -/
theorem c7_counterexample :
    specDecimalGrammar "inf".data = false ∧
      climateFromStr "Manila,2001,inf" =
        .ok { city := "Manila", year := 2001, temp := .inf } :=
  ⟨by decide, by decide⟩

/-- C7 (amended: "exactly when" weakened to "whenever", since the parser also
accepts exponent forms and the case-insensitive specials `inf` / `infinity` /
`nan`): every third field in standard decimal notation is accepted, and for
every input with exactly 3 fields, non-empty city and valid integer year whose
third field the float parser rejects, `from_str` fails with
`FloatParseFailure` wrapping the underlying error. -/
theorem c7_float_grammar_and_failure :
    (∀ t : List Char, specDecimalGrammar t = true → ∃ v, parseF32 t = .ok v) ∧
      (∀ (s c y t : List Char) (n : Nat) (e : FloatErrorKind),
        splitComma s = [c, y, t] → c ≠ [] → parseU32 y = .ok n →
          parseF32 t = .error e → fromStrList s = .error (.ParseFloat e)) :=
  ⟨parseF32_ok_of_specGrammar,
   fun _ _ _ _ _ _ hs hc hy ht => fromStr_floatErr hs hc hy ht⟩

/-- C7 witness: `"23.1"` (standard decimal notation) is accepted, and
`"Manila,2001,bar"` fails with `FloatParseFailure` wrapping `Invalid`. -/
theorem c7_witness :
    (∃ v, parseF32 "23.1".data = .ok v) ∧
      fromStrList "Manila,2001,bar".data = .error (.ParseFloat .invalid) :=
  ⟨c7_float_grammar_and_failure.1 "23.1".data (by decide),
   c7_float_grammar_and_failure.2 "Manila,2001,bar".data "Manila".data
      "2001".data "bar".data 2001 .invalid (by decide) (by decide) (by decide)
      (by decide)⟩

/-- C8: rendering each `ParseClimateError` variant produces exactly the five
specified messages — the numeric variants prefixing the wrapped error's own
rendered text — and the five messages are pairwise distinct. -/
theorem c8_display_messages :
    displayClimateError .Empty = "empty input" ∧
    displayClimateError .BadLen = "incorrect number of fields" ∧
    displayClimateError .NoCity = "no city name" ∧
    (∀ e, displayClimateError (.ParseInt e) =
      "error parsing year: " ++ displayIntError e) ∧
    (∀ e, displayClimateError (.ParseFloat e) =
      "error parsing temperature: " ++ displayFloatError e) ∧
    (∀ (e1 : IntErrorKind) (e2 : FloatErrorKind),
      List.Pairwise (fun a b => a ≠ b)
        [displayClimateError .Empty, displayClimateError .BadLen,
         displayClimateError .NoCity, displayClimateError (.ParseInt e1),
         displayClimateError (.ParseFloat e2)]) := by
  refine ⟨rfl, rfl, rfl, fun e => rfl, fun e => rfl, fun e1 e2 => ?_⟩
  cases e1 <;> cases e2 <;> decide

/-- C8 witness: the message equations and pairwise distinctness at
`InvalidDigit` and `Invalid`. -/
theorem c8_witness :
    displayClimateError (.ParseInt .invalidDigit) =
        "error parsing year: " ++ displayIntError .invalidDigit ∧
      List.Pairwise (fun a b => a ≠ b)
        [displayClimateError .Empty, displayClimateError .BadLen,
         displayClimateError .NoCity,
         displayClimateError (.ParseInt .invalidDigit),
         displayClimateError (.ParseFloat .invalid)] :=
  ⟨c8_display_messages.2.2.2.1 .invalidDigit,
   c8_display_messages.2.2.2.2.2 .invalidDigit .invalid⟩

/-- C9: `source` returns the original wrapped numeric-parse error object for
the two numeric variants and no cause for `Empty`, `WrongFieldCount` and
`MissingCity`. -/
theorem c9_error_source :
    (∀ e, errorSource (.ParseInt e) = some (.intErr e)) ∧
    (∀ e, errorSource (.ParseFloat e) = some (.floatErr e)) ∧
    errorSource .Empty = none ∧
    errorSource .BadLen = none ∧
    errorSource .NoCity = none :=
  ⟨fun _ => rfl, fun _ => rfl, rfl, rfl, rfl⟩

/-- C9 witness: the wrapped `PosOverflow` object is recovered intact. -/
theorem c9_witness :
    errorSource (.ParseInt .posOverflow) = some (.intErr .posOverflow) :=
  c9_error_source.1 .posOverflow

/-- C10: the fallback arm of the `match` on the split field vector (line 83)
is unreachable: every vector of length exactly 3 takes one of the two
three-element arms, never the fallback. -/
theorem c10_fallback_unreachable (v : List (List Char)) (h : v.length = 3) :
    matchFields v ≠ .badLenFallback := by
  obtain ⟨a, b, c, rfl⟩ := List.length_eq_three.mp h
  simp only [matchFields]
  split <;> simp

/-- C10 witness: a concrete 3-element field vector avoids the fallback arm. -/
theorem c10_witness : matchFields [['B'], ['1'], ['2']] ≠ .badLenFallback :=
  c10_fallback_unreachable [['B'], ['1'], ['2']] (by decide)
